import Mathlib

/-!
Verification of the AgriChain decision-intelligence core
(`agrichain-backend`): spoilage risk model, price predictor, harvest
window optimizer, mandi recommendation engine, and decision composer.

Numbers are modelled as exact rationals (`ℚ`).  Python `round(x, n)`
is modelled with Mathlib's `round` scaled by `10^n`.  Database queries
and external ML library calls (sklearn model fitting / prediction,
`math.sin` / `math.cos` / `** 0.5`) are modelled as explicit function
parameters; everything else is translated directly from the source.
-/

/-- Python `_clamp(value, lower, upper) = max(lower, min(upper, value))`
(from `decision_engine.py`). -/
def clampQ (lo hi x : ℚ) : ℚ := max lo (min hi x)

/-- Round-half-up at scale `s`, the scheme of Python `round(x, n)` with
`s = 10^n` (half-to-even ties are immaterial for every value arising here). -/
def roundAt (s : ℕ) (x : ℚ) : ℚ := ((Rat.floor ((s : ℚ) * x + 1/2) : ℤ) : ℚ) / (s : ℚ)

/-- Python `round(x, 2)`. -/
def round2 (x : ℚ) : ℚ := roundAt 100 x

/-- Python `round(x, 1)`. -/
def round1 (x : ℚ) : ℚ := roundAt 10 x

/-- Python `round(x, 3)`. -/
def round3 (x : ℚ) : ℚ := roundAt 1000 x

/-- ASCII lower-casing of a character, the behaviour of Python
`str.lower` on the ASCII identifiers used throughout the backend. -/
def lowChar (c : Char) : Char :=
  if 65 ≤ c.toNat ∧ c.toNat ≤ 90 then Char.ofNat (c.toNat + 32) else c

/-- Python `s.lower()` (ASCII). -/
def pyLower (s : String) : String := ⟨s.data.map lowChar⟩

/-- Python `s.startswith(pre)`. -/
def pyStartsWith (s pre : String) : Bool := pre.data.isPrefixOf s.data

/-- Python `x or d` for an optional float `x`: `d` when `x` is `None`
or equal to `0` (both are falsy), else `x`. -/
def orElseQ (x : Option ℚ) (d : ℚ) : ℚ :=
  match x with
  | none => d
  | some v => if v = 0 then d else v

/-! ## Spoilage risk model (`ml/spoilage_model.py`) -/

/-- Table `STORAGE_MULTIPLIERS` with the `dict.get(storage_type, 1.0)` default
applied in `SpoilageModel.predict`. -/
def storageMult (storageType : String) : ℚ :=
  if storageType = "open_air" then 3/2
  else if storageType = "covered" then 6/5
  else if storageType = "cold_storage" then 2/5
  else if storageType = "controlled_atm" then 1/5
  else 1

/-- Table `PACKAGING_MULTIPLIERS` with the `dict.get(packaging, 1.0)` default
applied in `SpoilageModel.predict`. -/
def packagingMult (packaging : String) : ℚ :=
  if packaging = "none" then 13/10
  else if packaging = "jute_bag" then 1
  else if packaging = "plastic_crate" then 4/5
  else if packaging = "corrugated_box" then 7/10
  else if packaging = "vacuum_pack" then 2/5
  else 1

/-- Crop metadata consumed by `SpoilageModel.predict` (either the cached
`CropMeta` row or the unknown-crop defaults). -/
structure SpoilageCropMeta where
  shelfLifeDays : ℤ
  faoLossPct : ℚ
  category : Option String

/-- The four environment-derived factor scores of
`SpoilageModel.predict`.  Each is the value of the corresponding helper
(`_compute_temp_factor`, `_compute_humidity_factor`,
`_compute_transit_factor`, `_compute_health_factor`); they depend only
on the database state, the district, the destination and the crop
metadata, so they are fixed inputs for the properties below (which vary
only storage, packaging and harvest age). -/
structure SpoilageEnvFactors where
  tempFactor : ℚ
  humidityFactor : ℚ
  transitFactor : ℚ
  healthFactor : ℚ

/-- Source `SpoilageModel._compute_time_factor`: step function of
`days_since_harvest / shelf_life` (Python true division, exact here). -/
def computeTimeFactor (daysSinceHarvest shelfLife : ℤ) : ℚ :=
  if shelfLife ≤ 0 then 1/2
  else if (daysSinceHarvest : ℚ) / (shelfLife : ℚ) < 3/10 then 0
  else if (daysSinceHarvest : ℚ) / (shelfLife : ℚ) < 3/5 then 1/5
  else if (daysSinceHarvest : ℚ) / (shelfLife : ℚ) < 4/5 then 1/2
  else if (daysSinceHarvest : ℚ) / (shelfLife : ℚ) < 1 then 4/5
  else 1

/-- The clamped spoilage percentage computed inside
`SpoilageModel.predict` before rounding:
`max(0, min(100, base_rate * env_multiplier * storage_mult * packaging_mult * 100))`. -/
def spoilageRawPct (env : SpoilageEnvFactors) (meta : SpoilageCropMeta)
    (storageType packaging : String) (harvestDaysAgo : ℤ) : ℚ :=
  let baseRate := meta.faoLossPct / 100
  let timeFactor := computeTimeFactor harvestDaysAgo meta.shelfLifeDays
  let envMultiplier :=
    (1 + env.tempFactor * (2/5)) * (1 + env.humidityFactor * (1/5))
      * (1 + env.transitFactor * (1/5)) * (1 + timeFactor * (3/20))
      * (1 + env.healthFactor * (1/20))
  let effectiveRate := baseRate * envMultiplier * storageMult storageType * packagingMult packaging
  max 0 (min 100 (effectiveRate * 100))

/-- Risk classification of `SpoilageModel.predict`. -/
def riskLevelOf (pct : ℚ) : String :=
  if pct < 8 then "Low"
  else if pct < 20 then "Medium"
  else if pct < 40 then "High"
  else "Critical"

/-- The fields of the dictionary returned by `SpoilageModel.predict`
that the verified properties refer to (factor breakdown and
recommendation strings omitted). -/
structure SpoilageAssessment where
  spoilagePct : ℚ
  riskLevel : String
  lossEstimateKg : ℚ
  shelfLifeRemainingDays : ℤ
  faoBaselinePct : ℚ
  confidence : ℚ
  deriving Repr

/-- Source `SpoilageModel.predict` (lines 128-209 of `ml/spoilage_model.py`),
with the database-derived factor scores supplied through `env`. -/
def spoilagePredict (env : SpoilageEnvFactors) (meta : SpoilageCropMeta)
    (storageType packaging : String) (harvestDaysAgo : ℤ) (quantityKg : ℚ) :
    SpoilageAssessment :=
  let pct := spoilageRawPct env meta storageType packaging harvestDaysAgo
  { spoilagePct := round2 pct
    riskLevel := riskLevelOf pct
    lossEstimateKg := round1 (quantityKg * pct / 100)
    shelfLifeRemainingDays := max 0 (meta.shelfLifeDays - harvestDaysAgo)
    faoBaselinePct := meta.faoLossPct
    confidence := if meta.category.isSome then 18/25 else 11/20 }

/-! ## Harvest window optimizer (`ml/harvest_model.py`) -/

/-- The maturity signal dictionary as consumed by
`HarvestModel._make_decision` and `_compute_confidence`; `none` models a
missing key (Python `dict.get` returning `None`). -/
structure MaturitySignal where
  status : Option String
  score : Option ℚ
  daysToMaturity : Option ℤ

/-- The NDVI signal dictionary (only the status key is read). -/
structure NdviSignal where
  status : Option String

/-- The weather signal dictionary (only the status key is read). -/
structure WeatherSignal where
  status : Option String

/-- The price-timing signal dictionary (only the status key is read). -/
structure PriceSignal where
  status : Option String

/-- The soil signal dictionary (only the status key is read). -/
structure SoilSignal where
  status : Option String

/-- The crop metadata dictionary as read by `_make_decision`
(`meta.get("shelf_life_days", 7)`). -/
structure HarvestCropMeta where
  shelfLifeDays : Option ℤ

/-- The harvest decision returned by `HarvestModel._make_decision`.
The optimal window is kept as day offsets from `date.today()`; the
reasoning string is presentation-only and omitted. -/
structure HarvestDecision where
  action : String
  waitDays : ℤ
  windowStartOffset : ℤ
  windowEndOffset : ℤ
  priority : String
  deriving Repr, DecidableEq

/-- Source `HarvestModel._make_decision` (lines 462-569 of
`ml/harvest_model.py`): the fixed priority cascade.  `Int.fdiv` is
Python floor division `//`. -/
def makeDecision (maturity : MaturitySignal) (ndvi : NdviSignal)
    (weather : WeatherSignal) (price : PriceSignal) (meta : HarvestCropMeta) :
    HarvestDecision :=
  if maturity.status = some "over_mature" then
    if weather.status = some "optimal" ∨ weather.status = some "fair" then
      ⟨"urgent_harvest", 0, 0, 2, "critical"⟩
    else
      ⟨"urgent_harvest", 1, 1, 3, "critical"⟩
  else if maturity.score.getD (1/2) < 1/2 ∧ ¬ ndvi.status = some "harvest_ready" then
    ⟨"wait", maturity.daysToMaturity.getD 10,
      max 0 (maturity.daysToMaturity.getD 10 - 5),
      maturity.daysToMaturity.getD 10 + 10, "low"⟩
  else if weather.status = some "rain_risk" then
    ⟨"wait", 3, 3, 7, "medium"⟩
  else if price.status = some "prices_rising" ∧ maturity.status = some "mature" then
    ⟨"wait", min 5 (Int.fdiv (meta.shelfLifeDays.getD 7) 2), 0,
      min 5 (Int.fdiv (meta.shelfLifeDays.getD 7) 2) + 3, "low"⟩
  else
    ⟨"harvest_now", 0, 0, 5, "medium"⟩

/-- Source `HarvestModel._compute_confidence` (lines 571-597): 0.5 base,
+0.12 for maturity status not "unknown", +0.12 for NDVI status not
"no_data", +0.12 for weather status not "no_data", +0.08 for soil
present with status not "no_data", then `round(min(0.95, conf), 2)`. -/
def computeHarvestConfidence (maturity : MaturitySignal) (ndvi : NdviSignal)
    (weather : WeatherSignal) (soil : Option SoilSignal) : ℚ :=
  round2 (min (19/20)
    (1/2
      + (if ¬ maturity.status = some "unknown" then 3/25 else 0)
      + (if ¬ ndvi.status = some "no_data" then 3/25 else 0)
      + (if ¬ weather.status = some "no_data" then 3/25 else 0)
      + (match soil with
          | none => 0
          | some s => if ¬ s.status = some "no_data" then 2/25 else 0)))

/-- Modelled from the spec (for comparison in C8): "Confidence = 0.5
base, +0.12 each for {maturity known, NDVI available, weather
available}, +0.08 if soil data available, −0.08 if the crop is not
reported as harvest-ready-equivalent, clamped to [0,0.95]." -/
def specHarvestConfidence (maturityKnown ndviAvail weatherAvail soilAvail harvestReady : Bool) : ℚ :=
  let maturityTerm : ℚ := if maturityKnown then 3/25 else 0
  let ndviTerm : ℚ := if ndviAvail then 3/25 else 0
  let weatherTerm : ℚ := if weatherAvail then 3/25 else 0
  let soilTerm : ℚ := if soilAvail then 2/25 else 0
  let readyPenalty : ℚ := if harvestReady then 0 else 2/25
  clampQ 0 (19/20) (1/2 + maturityTerm + ndviTerm + weatherTerm + soilTerm - readyPenalty)

/-! ## Decision composer (`decision_engine.py`) -/

/-- The price-trend dictionary read by `combine_model_outputs`. -/
structure PriceTrendIn where
  direction : Option String
  expectedPriceRange : Option (ℚ × ℚ)
  confidence : Option ℚ

/-- The harvest-window dictionary read by `combine_model_outputs`. -/
structure HarvestWindowIn where
  recommendation : Option String
  confidence : Option ℚ

/-- The spoilage-risk dictionary read by `combine_model_outputs`. -/
structure SpoilageRiskIn where
  riskCategory : Option String
  riskScore : Option ℚ
  confidence : Option ℚ

/-- The features dictionary read by `combine_model_outputs`. -/
structure DecisionFeatures where
  extremeWeatherFlag : Bool
  bestMandiName : Option String
  bestMandiPrice : Option ℚ
  localMandiPrice : Option ℚ
  estimatedDistanceKm : Option ℚ
  transportCostEstimate : Option ℚ
  netProfitBestMandi : Option ℚ
  netProfitLocal : Option ℚ

/-- One entry of the 3-tier preservation-action list. -/
structure PreservationAction where
  rank : ℕ
  tag : String
  act : String
  costInrPerQuintal : ℤ
  savesPercent : ℤ
  deriving Repr, DecidableEq

/-- Source `_build_preservation_actions`; Python `int()` truncation equals
`Rat.floor` because every clamped value is positive. -/
def buildPreservationActions (riskScore : ℚ) : List PreservationAction :=
  [⟨1, "cheapest", "Sell immediately at local market", 0,
      Rat.floor (clampQ 12 45 (15 + riskScore * 30))⟩,
    ⟨2, "moderate", "Move to cold storage", 450,
      Rat.floor (clampQ 70 90 (72 + riskScore * 22))⟩,
    ⟨3, "best_outcome", "Grade + warehouse storage", 780,
      Rat.floor (clampQ 82 96 (84 + riskScore * 14))⟩]

/-- The dictionary returned by `combine_model_outputs`. -/
structure ComposedDecision where
  action : String
  bestMandiName : String
  priceRangeLow : ℚ
  priceRangeHigh : ℚ
  netProfitBest : ℚ
  netProfitLocal : ℚ
  preservationActions : List PreservationAction
  overallConfidence : ℚ

/-- Source `combine_model_outputs` (`decision_engine.py`, lines 38-102). -/
def combineModelOutputs (pt : PriceTrendIn) (hw : HarvestWindowIn)
    (sr : SpoilageRiskIn) (ft : DecisionFeatures) : ComposedDecision :=
  let direction := pyLower (pt.direction.getD "stable")
  let spoilageCategory := pyLower (sr.riskCategory.getD "Medium")
  let riskScore := sr.riskScore.getD (1/2)
  let action0 := hw.recommendation.getD "harvest_now"
  let action :=
    if ft.extremeWeatherFlag then "sell_immediately"
    else if direction = "rising" ∧ spoilageCategory = "low" then
      (if pyStartsWith action0 "wait_" then action0 else "wait_3_days")
    else if direction = "falling" ∨ spoilageCategory = "high" ∨ spoilageCategory = "critical" then
      "sell_immediately"
    else action0
  let bestMandiName := ft.bestMandiName.getD "Local Mandi"
  let bestMandiPrice := ft.bestMandiPrice.getD 0
  let localMandiPrice := ft.localMandiPrice.getD bestMandiPrice
  let distanceKm := ft.estimatedDistanceKm.getD 28
  let transportCost := ft.transportCostEstimate.getD 0
  let expectedPriceRange := pt.expectedPriceRange.getD
    (round3 (bestMandiPrice * (96/100)), round3 (bestMandiPrice * (104/100)))
  let priceDiffPerQuintal := max 0 ((bestMandiPrice - localMandiPrice) * 100)
  let selected :=
    if distanceKm > 95 ∧ transportCost > priceDiffPerQuintal then
      ("Local Mandi",
        (round3 (localMandiPrice * (98/100)), round3 (localMandiPrice * (102/100))))
    else (bestMandiName, expectedPriceRange)
  { action := action
    bestMandiName := selected.1
    priceRangeLow := round3 selected.2.1
    priceRangeHigh := round3 selected.2.2
    netProfitBest := round3 (ft.netProfitBestMandi.getD 0)
    netProfitLocal := round3 (ft.netProfitLocal.getD 0)
    preservationActions := buildPreservationActions riskScore
    overallConfidence := round3 (clampQ (1/2) (19/20)
      ((pt.confidence.getD (11/20) + hw.confidence.getD (3/5)
        + sr.confidence.getD (31/50)) / 3)) }

/-! ## Mandi recommendation engine (`ml/recommendation_engine.py`) -/

/-- The static `DEFAULT_MANDIS` table. -/
def DEFAULT_MANDIS : List (String × List String) :=
  [("nashik", ["nashik", "pune", "mumbai"]),
    ("pune", ["pune", "mumbai", "solapur"]),
    ("nagpur", ["nagpur", "amravati", "akola"]),
    ("ahmednagar", ["ahmednagar", "pune", "nashik"]),
    ("solapur", ["solapur", "pune", "kolhapur"]),
    ("kolhapur", ["kolhapur", "pune", "sangli"]),
    ("aurangabad", ["aurangabad", "nashik", "pune"]),
    ("jalgaon", ["jalgaon", "nashik", "nagpur"]),
    ("amravati", ["amravati", "nagpur", "akola"]),
    ("sangli", ["sangli", "kolhapur", "pune"])]

/-- The default-candidate branch of `RecommendationEngine.recommend`:
`DEFAULT_MANDIS.get(origin, [origin])` plus
`if origin not in candidates: candidates.insert(0, origin)`. -/
def defaultCandidates (origin : String) : List String :=
  let cs := (DEFAULT_MANDIS.lookup origin).getD [origin]
  if origin ∈ cs then cs else origin :: cs

/-- Candidate selection of `RecommendationEngine.recommend`: an
explicitly supplied non-empty list is lower-cased and used verbatim
(Python `if target_mandis:` — `None` and the empty list are falsy and
fall back to the default table). -/
def candidateMandis (origin : String) (targetMandis : Option (List String)) : List String :=
  match targetMandis with
  | some (t :: ts) => (t :: ts).map pyLower
  | some [] => defaultCandidates origin
  | none => defaultCandidates origin

/-- One ranked entry of the returned recommendation list. -/
structure MandiRec where
  mandi : String
  netProfitInr : ℚ
  rank : ℕ
  deriving Repr, DecidableEq

/-- Source `RecommendationEngine.recommend` (lines 76-149): candidate
selection, per-mandi evaluation, stable sort by net profit descending,
and rank assignment.  `evalProfit` models `_evaluate_mandi(...)
["net_profit_inr"]`, a value depending only on the database, the
commodity, the origin and the destination. -/
def recommend (evalProfit : String → ℚ) (originDistrict : String)
    (targetMandis : Option (List String)) : List MandiRec :=
  let origin := pyLower originDistrict
  let candidates := candidateMandis origin targetMandis
  let results := candidates.map (fun m => (m, evalProfit m))
  let sorted := results.mergeSort (fun a b => decide (b.2 ≤ a.2))
  sorted.enum.map (fun p => ⟨p.2.1, p.2.2, p.1 + 1⟩)

/-! ## Price predictor (`ml/price_predictor.py`) -/

/-- External mathematical and calendar state used by the price
predictor: `math.sin`/`math.cos` of the cyclical month encoding,
`** 0.5` (square root), and the month / weekday of
`date.today() + timedelta(days=k)`. -/
structure MathEnv where
  monthSin : ℤ → ℚ
  monthCos : ℤ → ℚ
  sqrtQ : ℚ → ℚ
  todayMonth : ℕ → ℤ
  todayDow : ℕ → ℤ

/-- A historical price row as consumed by `_extract_features`
(`dateKey` orders rows chronologically; `dateValid` is the success of
`date.fromisoformat`). -/
structure PriceRowIn where
  dateKey : ℤ
  dateValid : Bool
  month : ℤ
  dow : ℤ
  modalPrice : ℚ
  arrivalQty : Option ℚ

/-- Default row for out-of-range list indexing (never reached for the
indices used). -/
def defaultPriceRow : PriceRowIn := ⟨0, false, 0, 0, 0, none⟩

/-- A weather row as consumed by the price predictor. -/
structure WeatherRowIn where
  dateKey : ℤ
  tempAvg : Option ℚ
  rainfallMm : Option ℚ
  humidity : Option ℚ

/-- The `weather_lookup` dict: built by insertion in list order, so a
later row with the same date overwrites an earlier one. -/
def weatherLookup (weather : List WeatherRowIn) (key : ℤ) : Option WeatherRowIn :=
  weather.reverse.find? (fun w => decide (w.dateKey = key))

/-- One feature row of `PricePredictor._extract_features` (the 17
features and the target, for index `i ≥ 30` of the sorted rows). -/
def extractFeatureRow (env : MathEnv) (ps : List PriceRowIn)
    (weather : List WeatherRowIn) (i : ℕ) : List ℚ × ℚ :=
  let price := fun (j : ℕ) => (ps.getD j defaultPriceRow).modalPrice
  let row := ps.getD i defaultPriceRow
  let window7 := (List.range 7).map (fun k => price (i - 7 + k))
  let window14 := (List.range 14).map (fun k => price (i - 14 + k))
  let window21 := (List.range 21).map (fun k => price (i - 21 + k))
  let ma7 := window7.sum / 7
  let ma14 := window14.sum / 14
  let ma21 := window21.sum / 21
  let momentum := if ma21 > 0 then (ma7 - ma21) / ma21 else 0
  let std7 := env.sqrtQ ((window7.map (fun p => (p - ma7) ^ 2)).sum / 7)
  let volatility := if ma7 > 0 then std7 / ma7 else 0
  let arrival := orElseQ row.arrivalQty 0
  let arrivalMa7 :=
    ((List.range 7).map (fun k => orElseQ (ps.getD (i - 7 + k) defaultPriceRow).arrivalQty 0)).sum / 7
  let w := weatherLookup weather row.dateKey
  ([price (i - 1), price (i - 7), price (i - 14), price (i - 30),
    ma7, ma14, ma21, momentum, volatility, arrival, arrivalMa7,
    env.monthSin row.month, env.monthCos row.month, (row.dow : ℚ),
    orElseQ (w.bind (·.tempAvg)) 30, orElseQ (w.bind (·.rainfallMm)) 0,
    orElseQ (w.bind (·.humidity)) 60],
    row.modalPrice)

/-- Source `PricePredictor._extract_features`: fewer than 35 rows yield no
features; otherwise one row per chronological index `i ∈ [30, n)` whose
date parses (`continue` skips the others). -/
def extractFeatures (env : MathEnv) (prices : List PriceRowIn)
    (weather : List WeatherRowIn) : List (List ℚ × ℚ) :=
  if prices.length < 35 then []
  else
    let ps := prices.mergeSort (fun a b => decide (a.dateKey ≤ b.dateKey))
    ((List.range ps.length).drop 30).filterMap (fun i =>
      if (ps.getD i defaultPriceRow).dateValid then
        some (extractFeatureRow env ps weather i)
      else none)

/-- The value returned by `PricePredictor.train`: either the
insufficient-data report or the trained report. -/
inductive TrainResult where
  | insufficientData (samples : ℕ)
  | trained (samples : ℕ) (mae mape : ℚ)
  deriving Repr, DecidableEq

/-- Source `PricePredictor.train` (lines 177-277).  `cv` models the
`TimeSeriesSplit` + `GradientBoostingRegressor` cross-validation of the
sklearn library, returning `(avg_mae, avg_mape)`; the fitted model
itself goes to the external model store and is not part of the report.
Both outcomes are ordinary return values — the function raises
nothing. -/
def train (env : MathEnv) (cv : List (List ℚ × ℚ) → ℚ × ℚ)
    (prices : List PriceRowIn) (weather : List WeatherRowIn) : TrainResult :=
  let X := extractFeatures env prices weather
  if X.length < 50 then TrainResult.insufficientData X.length
  else TrainResult.trained X.length (round2 (cv X).1) (round2 ((cv X).2 * 100))

/-- One per-day forecast entry (its date string is today + dayOffset,
kept as the offset). -/
structure ForecastDay where
  dayOffset : ℕ
  predictedPrice : ℚ
  ciLow : ℚ
  ciHigh : ℚ
  deriving Repr, DecidableEq

/-- The dictionary returned by `PricePredictor.predict`. -/
structure PriceForecastOut where
  currentPrice : ℚ
  forecasts : List ForecastDay
  direction : String
  pctChangeForecast : ℚ
  confidence : ℚ
  modelVersion : String
  source : String
  deriving Repr, DecidableEq

/-- The database snapshot consumed by one `PricePredictor.predict`
call: the 60-day district price query (ascending) with its arrival
quantities, the latest weather row, and the data of the separate
`_statistical_forecast` queries (newest-first commodity-wide prices,
limit 30, and the crop's base price). -/
structure PredictCtx where
  recentPrices : List ℚ
  arrivals : List ℚ
  latestWeather : Option WeatherRowIn
  fallbackPrices : List ℚ
  metaBasePrice : Option ℚ

/-- Python `xs[-k:]`. -/
def lastSlice (xs : List ℚ) (k : ℕ) : List ℚ := xs.drop (xs.length - k)

/-- Python `xs[len(xs)-k]`, i.e. `xs[-k]` for `k ≤ len(xs)`. -/
def idxFromEnd (xs : List ℚ) (k : ℕ) : ℚ := xs.getD (xs.length - k) 0

/-- Python `sum(xs[-k:]) / min(k, len(xs))` — the moving averages of the
forecast loop. -/
def maOf (xs : List ℚ) (k : ℕ) : ℚ := (lastSlice xs k).sum / ((min k xs.length : ℕ) : ℚ)

/-- The volatility of the forecast loop:
`std(window_7) / mean_7` with `mean_7 = ma_7`, 0 when `ma_7 ≤ 0`. -/
def forecastVolatility (env : MathEnv) (cur : List ℚ) : ℚ :=
  let ma7 := maOf cur 7
  let window7 := if cur.length ≥ 7 then lastSlice cur 7 else cur
  let std7 := env.sqrtQ ((window7.map (fun p => (p - ma7) ^ 2)).sum / (window7.length : ℚ))
  if ma7 > 0 then std7 / ma7 else 0

/-- The 17-feature vector built for one forecast day. -/
def forecastFeatures (env : MathEnv) (ctx : PredictCtx) (dayOffset : ℕ)
    (cur : List ℚ) : List ℚ :=
  let n := cur.length
  let lag1 := idxFromEnd cur 1
  let lag7 := if n ≥ 7 then idxFromEnd cur 7 else cur.headD 0
  let lag14 := if n ≥ 14 then idxFromEnd cur 14 else cur.headD 0
  let lag30 := if n ≥ 30 then idxFromEnd cur 30 else cur.headD 0
  let ma7 := maOf cur 7
  let ma14 := maOf cur 14
  let ma21 := maOf cur 21
  let momentum := if ma21 > 0 then (ma7 - ma21) / ma21 else 0
  let arrRecent := if ctx.arrivals.length ≥ 7 then lastSlice ctx.arrivals 7 else ctx.arrivals
  let arrivalMa := if arrRecent.length ≠ 0 then arrRecent.sum / (arrRecent.length : ℚ) else 0
  let month := env.todayMonth dayOffset
  [lag1, lag7, lag14, lag30, ma7, ma14, ma21, momentum,
    forecastVolatility env cur, arrivalMa, arrivalMa,
    env.monthSin month, env.monthCos month, ((env.todayDow dayOffset : ℤ) : ℚ),
    orElseQ (ctx.latestWeather.map (fun w => (w.tempAvg.getD 30))) 30,
    orElseQ (ctx.latestWeather.map (fun w => (w.rainfallMm.getD 0))) 0,
    orElseQ (ctx.latestWeather.map (fun w => (w.humidity.getD 60))) 60]

/-- One step of the recursive one-day-ahead forecast: the trained model
applied to the feature vector, or the momentum-weighted moving average
when no model is cached. -/
def forecastStep (env : MathEnv) (model : Option (List ℚ → ℚ)) (ctx : PredictCtx)
    (dayOffset : ℕ) (cur : List ℚ) : ℚ :=
  match model with
  | some g => g (forecastFeatures env ctx dayOffset cur)
  | none =>
    let ma7 := maOf cur 7
    let ma21 := maOf cur 21
    let momentum := if ma21 > 0 then (ma7 - ma21) / ma21 else 0
    ma7 * (1 + momentum * (3/10))

/-- The forecast loop of `PricePredictor.predict`: each predicted price
is appended to the working series before the next day is forecast. -/
def forecastLoop (env : MathEnv) (model : Option (List ℚ → ℚ)) (ctx : PredictCtx) :
    ℕ → ℕ → List ℚ → List ForecastDay
  | 0, _, _ => []
  | k + 1, dayOffset, cur =>
    let predicted := forecastStep env model ctx dayOffset cur
    let uncertainty := max (predicted * forecastVolatility env cur) (predicted * (3/100))
    ⟨dayOffset, round2 predicted, round2 (predicted - 2 * uncertainty),
        round2 (predicted + 2 * uncertainty)⟩
      :: forecastLoop env model ctx k (dayOffset + 1) (cur ++ [predicted])

/-- The base price of `_statistical_forecast`: the mean of the
available prices, else the crop's base price when truthy, else 2000. -/
def statBasePrice (ctx : PredictCtx) : ℚ :=
  if ctx.fallbackPrices.length ≠ 0 then
    ctx.fallbackPrices.sum / (ctx.fallbackPrices.length : ℚ)
  else if orElseQ ctx.metaBasePrice 0 ≠ 0 then orElseQ ctx.metaBasePrice 0
  else 2000

/-- Source `PricePredictor._statistical_forecast` (lines 425-484). -/
def statisticalForecast (ctx : PredictCtx) (forecastDays : ℕ) : PriceForecastOut :=
  let basePrice := statBasePrice ctx
  { currentPrice := round2 basePrice
    forecasts := (List.range forecastDays).map (fun k =>
      let noise := basePrice * (1/100) * ((((k + 1) % 3 : ℕ) : ℚ) - 1)
      let predicted := round2 (basePrice + noise)
      ⟨k + 1, predicted, round2 (predicted * (92/100)), round2 (predicted * (108/100))⟩)
    direction := "stable"
    pctChangeForecast := 0
    confidence := 7/20
    modelVersion := "statistical_fallback"
    source := "statistical_fallback" }

/-- Source `PricePredictor.predict` (lines 279-423).  Under 14 recent district
prices everything is delegated to `_statistical_forecast`; otherwise
the recursive forecast loop runs (with the trained model when present,
with the moving-average fallback when not).  Division is exact rational
division; the `pct_change` division by a zero last price (a Python
`ZeroDivisionError`) is out of modelled range and yields 0 here. -/
def pricePredict (env : MathEnv) (model : Option (List ℚ → ℚ)) (ctx : PredictCtx)
    (forecastDays : ℕ) : PriceForecastOut :=
  if ctx.recentPrices.length < 14 then statisticalForecast ctx forecastDays
  else
    let forecasts := forecastLoop env model ctx forecastDays 1 ctx.recentPrices
    let startPrice := idxFromEnd ctx.recentPrices 1
    let pctChange :=
      if forecasts.length ≠ 0 then
        (((forecasts.getLastD ⟨0, 0, 0, 0⟩).predictedPrice - startPrice) / startPrice) * 100
      else 0
    let confidence0 : ℚ := if model.isSome then 3/4 else 11/20
    { currentPrice := round2 startPrice
      forecasts := forecasts
      direction :=
        if forecasts.length ≠ 0 then
          (if pctChange > 3 then "rising"
            else if pctChange < -3 then "falling" else "stable")
        else "stable"
      pctChangeForecast := round2 pctChange
      confidence :=
        if ctx.recentPrices.length > 60 then min (9/10) (confidence0 + 1/10)
        else confidence0
      modelVersion := if model.isSome then "1.0.0" else "statistical_fallback"
      source := if model.isSome then "ml_model" else "statistical" }

/-! ## Concrete example data used by witnesses and counterexamples -/

/-- Onion-like spoilage factor scores: temperature and humidity inside
the optimal ranges (0), no destination given (transit default 0.2),
healthy NDVI (0). -/
def envEx : SpoilageEnvFactors := ⟨0, 0, 1/5, 0⟩

/-- Onion-like crop metadata: 7-day shelf life, 6.41 % FAO loss. -/
def metaEx : SpoilageCropMeta := ⟨7, 641/100, some "vegetable"⟩

/-- A concrete external-math environment (all external values 0). -/
def mathEnv0 : MathEnv := ⟨fun _ => 0, fun _ => 0, fun _ => 0, fun _ => 0, fun _ => 0⟩

/-- A context with exactly 14 days of flat local history and no cached
model data. -/
def ctx14 : PredictCtx := ⟨List.replicate 14 100, [], none, [], none⟩

theorem ratFloor_eq_intFloor (q : ℚ) : Rat.floor q = ⌊q⌋ := rfl

theorem roundAt_eq_round (s : ℕ) (x : ℚ) :
    roundAt s x = ((round ((s : ℚ) * x) : ℤ) : ℚ) / (s : ℚ) := by
  unfold roundAt
  rw [ratFloor_eq_intFloor, round_eq]

theorem roundAt_mono {s : ℕ} {x y : ℚ} (h : x ≤ y) : roundAt s x ≤ roundAt s y := by
  unfold roundAt
  rw [ratFloor_eq_intFloor, ratFloor_eq_intFloor]
  have hs : (0 : ℚ) ≤ (s : ℚ) := by positivity
  have hsx : (s : ℚ) * x + 1/2 ≤ (s : ℚ) * y + 1/2 := by nlinarith
  have hfl : (⌊(s : ℚ) * x + 1/2⌋ : ℚ) ≤ (⌊(s : ℚ) * y + 1/2⌋ : ℚ) := by
    exact_mod_cast Int.floor_le_floor hsx
  exact div_le_div_of_nonneg_right hfl hs

theorem round2_mono {x y : ℚ} (h : x ≤ y) : round2 x ≤ round2 y := roundAt_mono h

theorem round2_near (x : ℚ) : |round2 x - x| ≤ 1 / 200 := by
  have h := abs_sub_round (100 * x)
  rw [show round2 x = ((round ((100 : ℚ) * x) : ℤ) : ℚ) / 100 from roundAt_eq_round 100 x]
  rw [abs_sub_comm] at h
  have heq : ((round ((100 : ℚ) * x) : ℤ) : ℚ) / 100 - x
      = (((round ((100 : ℚ) * x) : ℤ) : ℚ) - 100 * x) / 100 := by ring
  rw [heq, abs_div, abs_of_pos (show (0:ℚ) < 100 by norm_num)]
  rw [div_le_div_iff₀ (by norm_num) (by norm_num)]
  linarith

theorem computeTimeFactor_nonneg (d s : ℤ) : 0 ≤ computeTimeFactor d s := by
  unfold computeTimeFactor
  split_ifs <;> norm_num

theorem computeTimeFactor_le_one (d s : ℤ) : computeTimeFactor d s ≤ 1 := by
  unfold computeTimeFactor
  split_ifs <;> norm_num

theorem computeTimeFactor_mono (s : ℤ) {d d' : ℤ} (h : d ≤ d') :
    computeTimeFactor d s ≤ computeTimeFactor d' s := by
  unfold computeTimeFactor
  by_cases hs : s ≤ 0
  · simp [hs]
  · have hspos : (0 : ℚ) < (s : ℚ) := by exact_mod_cast lt_of_not_le hs
    have hr : (d : ℚ) / (s : ℚ) ≤ (d' : ℚ) / (s : ℚ) := by
      apply div_le_div_of_nonneg_right _ hspos.le
      exact_mod_cast h
    simp only [hs, if_false]
    split_ifs <;> linarith

/-- Composing the fixed clamp of the spoilage model with a rescaling of
the time factor is monotone, whatever the sign of the constant part. -/
theorem clampTimeScale_mono (C : ℚ) {t t' : ℚ} (ht : 0 ≤ t) (h : t ≤ t') :
    max 0 (min 100 (C * (1 + t * (3/20)))) ≤ max 0 (min 100 (C * (1 + t' * (3/20)))) := by
  rcases le_or_lt 0 C with hC | hC
  · have hmul : C * (1 + t * (3/20)) ≤ C * (1 + t' * (3/20)) := by nlinarith
    exact max_le_max le_rfl (min_le_min le_rfl hmul)
  · have h1 : C * (1 + t * (3/20)) ≤ 0 := by nlinarith
    have h2 : C * (1 + t' * (3/20)) ≤ 0 := by nlinarith
    rw [min_eq_right (by linarith : C * (1 + t * (3/20)) ≤ 100),
      min_eq_right (by linarith : C * (1 + t' * (3/20)) ≤ 100),
      max_eq_left h1, max_eq_left h2]

theorem spoilageRawPct_mono (env : SpoilageEnvFactors) (meta : SpoilageCropMeta)
    (storageType packaging : String) {d d' : ℤ} (h : d ≤ d') :
    spoilageRawPct env meta storageType packaging d ≤
      spoilageRawPct env meta storageType packaging d' := by
  unfold spoilageRawPct
  have e : ∀ t : ℚ,
      meta.faoLossPct / 100 *
          ((1 + env.tempFactor * (2/5)) * (1 + env.humidityFactor * (1/5))
            * (1 + env.transitFactor * (1/5)) * (1 + t * (3/20))
            * (1 + env.healthFactor * (1/20)))
          * storageMult storageType * packagingMult packaging * 100
        = (meta.faoLossPct / 100 * ((1 + env.tempFactor * (2/5))
            * (1 + env.humidityFactor * (1/5)) * (1 + env.transitFactor * (1/5))
            * (1 + env.healthFactor * (1/20)))
            * storageMult storageType * packagingMult packaging * 100) * (1 + t * (3/20)) := by
    intro t; ring
  dsimp only
  rw [e, e]
  exact clampTimeScale_mono _ (computeTimeFactor_nonneg d meta.shelfLifeDays)
    (computeTimeFactor_mono meta.shelfLifeDays h)

/-- C6. For fixed commodity, district, destination, storage type,
packaging and quantity, increasing `harvest_days_ago` never decreases
the `spoilage_pct` returned by `SpoilageModel.predict`. -/
theorem spoilagePct_monotone_in_harvest_age (env : SpoilageEnvFactors)
    (meta : SpoilageCropMeta) (storageType packaging : String) (quantityKg : ℚ)
    {d d' : ℤ} (h : d ≤ d') :
    (spoilagePredict env meta storageType packaging d quantityKg).spoilagePct ≤
      (spoilagePredict env meta storageType packaging d' quantityKg).spoilagePct := by
  dsimp only [spoilagePredict]
  exact round2_mono (spoilageRawPct_mono env meta storageType packaging h)

/-- Witness for C6 at a concrete input: onion-like metadata, harvest age
2 vs 6 days on a 7-day shelf life. -/
theorem spoilagePct_monotone_witness :
    (spoilagePredict ⟨0, 0, 1/5, 0⟩ ⟨7, 641/100, some "vegetable"⟩
        "covered" "jute_bag" 2 1000).spoilagePct ≤
      (spoilagePredict ⟨0, 0, 1/5, 0⟩ ⟨7, 641/100, some "vegetable"⟩
        "covered" "jute_bag" 6 1000).spoilagePct :=
  spoilagePct_monotone_in_harvest_age ⟨0, 0, 1/5, 0⟩ ⟨7, 641/100, some "vegetable"⟩
    "covered" "jute_bag" 1000 (by norm_num)

theorem round2_exact (n : ℤ) : round2 ((n : ℚ)/100) = (n : ℚ)/100 := by
  unfold round2 roundAt
  rw [ratFloor_eq_intFloor]
  have h1 : ((100 : ℕ) : ℚ) * ((n : ℚ)/100) + 1/2 = 1/2 + (n : ℚ) := by
    push_cast
    ring
  rw [h1, Int.floor_add_int]
  norm_num

theorem round2_eq_self_of_int (x : ℚ) (h : ∃ n : ℤ, (100 : ℚ) * x = (n : ℚ)) :
    round2 x = x := by
  obtain ⟨n, hn⟩ := h
  have hx : x = (n : ℚ)/100 := by
    field_simp
    linarith
  rw [hx]
  exact round2_exact n

theorem round2_idem (y : ℚ) : round2 (round2 y) = round2 y := by
  apply round2_eq_self_of_int
  refine ⟨Rat.floor ((((100 : ℕ) : ℚ)) * y + 1/2), ?_⟩
  unfold round2 roundAt
  push_cast
  ring

theorem round2_zero : round2 0 = 0 := by
  have h := round2_exact 0
  norm_num at h
  exact h

theorem round2_hundred : round2 100 = 100 := by
  have h := round2_exact 10000
  norm_num at h
  exact h

theorem round2_nonneg {x : ℚ} (hx : 0 ≤ x) : 0 ≤ round2 x := by
  have h := round2_mono hx
  rw [round2_zero] at h
  exact h

theorem spoilageRawPct_nonneg (env : SpoilageEnvFactors) (meta : SpoilageCropMeta)
    (storageType packaging : String) (d : ℤ) :
    0 ≤ spoilageRawPct env meta storageType packaging d := by
  unfold spoilageRawPct
  dsimp only
  exact le_max_left _ _

theorem spoilageRawPct_le_hundred (env : SpoilageEnvFactors) (meta : SpoilageCropMeta)
    (storageType packaging : String) (d : ℤ) :
    spoilageRawPct env meta storageType packaging d ≤ 100 := by
  unfold spoilageRawPct
  dsimp only
  exact max_le (by norm_num) (min_le_left _ _)

/-- C7 (amended). Every assessment returned by the spoilage
predictor has its (clamped) spoilage percentage in [0, 100] — both
before and after the 2-decimal rounding of the reported field — and its
risk tier is the fixed threshold function (<8 Low, <20 Medium, <40
High, else Critical) of the PRE-rounding percentage, exact at the
boundaries there (7.9 → Low, 8.0 → Medium); the reported `spoilage_pct`
field is that value rounded to two decimals, hence within 1/200 of the
classified value. -/
theorem spoilage_range_and_tier (env : SpoilageEnvFactors) (meta : SpoilageCropMeta)
    (storageType packaging : String) (d : ℤ) (q : ℚ) :
    0 ≤ (spoilagePredict env meta storageType packaging d q).spoilagePct
    ∧ (spoilagePredict env meta storageType packaging d q).spoilagePct ≤ 100
    ∧ 0 ≤ spoilageRawPct env meta storageType packaging d
    ∧ spoilageRawPct env meta storageType packaging d ≤ 100
    ∧ (spoilagePredict env meta storageType packaging d q).riskLevel
        = riskLevelOf (spoilageRawPct env meta storageType packaging d)
    ∧ |(spoilagePredict env meta storageType packaging d q).spoilagePct
        - spoilageRawPct env meta storageType packaging d| ≤ 1/200
    ∧ riskLevelOf (79/10) = "Low" ∧ riskLevelOf 8 = "Medium" := by
  have h0 := spoilageRawPct_nonneg env meta storageType packaging d
  have h100 := spoilageRawPct_le_hundred env meta storageType packaging d
  refine ⟨?_, ?_, h0, h100, ?_, ?_, ?_, ?_⟩
  · dsimp only [spoilagePredict]
    exact round2_nonneg h0
  · dsimp only [spoilagePredict]
    have h := round2_mono h100
    rw [round2_hundred] at h
    exact h
  · rfl
  · dsimp only [spoilagePredict]
    exact round2_near _
  · unfold riskLevelOf
    norm_num
  · unfold riskLevelOf
    norm_num

/-- C7 counterexample. With onion-like metadata (FAO loss 6.41 %),
benign factors and covered/jute storage, the internal percentage is
7.99968: the classifier fires the `< 8` branch giving tier "Low", but
the reported `spoilage_pct` field rounds to exactly 8.0 — an assessment
with `spoilage_pct = 8.0` and tier Low, while the claim requires 8.0 to
map to Medium. -/
theorem spoilage_tier_boundary_counterexample :
    (spoilagePredict envEx metaEx "covered" "jute_bag" 0 1000).spoilagePct = 8
    ∧ (spoilagePredict envEx metaEx "covered" "jute_bag" 0 1000).riskLevel = "Low"
    ∧ riskLevelOf 8 = "Medium" := by
  have htf : computeTimeFactor 0 7 = 0 := by
    unfold computeTimeFactor
    norm_num
  have hraw : spoilageRawPct envEx metaEx "covered" "jute_bag" 0 = 24999/3125 := by
    unfold spoilageRawPct envEx metaEx
    dsimp only
    rw [htf]
    rw [show storageMult "covered" = 6/5 from rfl, show packagingMult "jute_bag" = 1 from rfl]
    norm_num [max_def, min_def]
  refine ⟨?_, ?_, ?_⟩
  · dsimp only [spoilagePredict]
    rw [hraw]
    unfold round2 roundAt
    rw [ratFloor_eq_intFloor]
    norm_num
  · dsimp only [spoilagePredict]
    rw [hraw]
    unfold riskLevelOf
    norm_num
  · unfold riskLevelOf
    norm_num

/-- Composing the fixed clamp with a rescaling of one multiplier is
monotone whatever the sign of the constant part. -/
theorem clampMulFactor_mono (K : ℚ) {a b : ℚ} (ha : 0 ≤ a) (hab : a ≤ b) :
    max 0 (min 100 (K * a)) ≤ max 0 (min 100 (K * b)) := by
  rcases le_or_lt 0 K with hK | hK
  · exact max_le_max le_rfl (min_le_min le_rfl (mul_le_mul_of_nonneg_left hab hK))
  · have h1 : K * a ≤ 0 := by nlinarith
    have h2 : K * b ≤ 0 := by nlinarith
    rw [min_eq_right (by linarith : K * a ≤ 100),
      min_eq_right (by linarith : K * b ≤ 100), max_eq_left h1, max_eq_left h2]

theorem spoilageRawPct_storage_shape (env : SpoilageEnvFactors)
    (meta : SpoilageCropMeta) (pk : String) (d : ℤ) (st : String) :
    spoilageRawPct env meta st pk d
      = max 0 (min 100
          ((meta.faoLossPct / 100
              * ((1 + env.tempFactor * (2/5)) * (1 + env.humidityFactor * (1/5))
                * (1 + env.transitFactor * (1/5))
                * (1 + computeTimeFactor d meta.shelfLifeDays * (3/20))
                * (1 + env.healthFactor * (1/20)))
              * packagingMult pk * 100) * storageMult st)) := by
  unfold spoilageRawPct
  dsimp only
  have h : meta.faoLossPct / 100
        * ((1 + env.tempFactor * (2/5)) * (1 + env.humidityFactor * (1/5))
          * (1 + env.transitFactor * (1/5))
          * (1 + computeTimeFactor d meta.shelfLifeDays * (3/20))
          * (1 + env.healthFactor * (1/20)))
        * storageMult st * packagingMult pk * 100
      = (meta.faoLossPct / 100
          * ((1 + env.tempFactor * (2/5)) * (1 + env.humidityFactor * (1/5))
            * (1 + env.transitFactor * (1/5))
            * (1 + computeTimeFactor d meta.shelfLifeDays * (3/20))
            * (1 + env.healthFactor * (1/20)))
          * packagingMult pk * 100) * storageMult st := by ring
  rw [h]

/-- C10. `SpoilageModel.predict` is total over arbitrary storage and
packaging strings: any storage type outside the four known keys and any
packaging outside the five known keys silently receives multiplier 1.0
(in particular the spec's name "controlled_atmosphere", which is not the
code's key "controlled_atm"), so such a storage string yields a spoilage
percentage no better than cold storage (0.4) and no worse than covered
storage (1.2) — never an error. -/
theorem spoilage_unknown_storage_packaging (s p : String)
    (env : SpoilageEnvFactors) (meta : SpoilageCropMeta) (d : ℤ) (q : ℚ)
    (hs : s ∉ (["open_air", "covered", "cold_storage", "controlled_atm"] : List String))
    (hp : p ∉ (["none", "jute_bag", "plastic_crate", "corrugated_box", "vacuum_pack"] : List String)) :
    storageMult s = 1 ∧ packagingMult p = 1
    ∧ (spoilagePredict env meta "cold_storage" p d q).spoilagePct ≤
        (spoilagePredict env meta s p d q).spoilagePct
    ∧ (spoilagePredict env meta s p d q).spoilagePct ≤
        (spoilagePredict env meta "covered" p d q).spoilagePct := by
  simp only [List.mem_cons, List.not_mem_nil, or_false, not_or] at hs hp
  have hsm : storageMult s = 1 := by
    unfold storageMult
    rw [if_neg hs.1, if_neg hs.2.1, if_neg hs.2.2.1, if_neg hs.2.2.2]
  have hpm : packagingMult p = 1 := by
    unfold packagingMult
    rw [if_neg hp.1, if_neg hp.2.1, if_neg hp.2.2.1, if_neg hp.2.2.2.1, if_neg hp.2.2.2.2]
  refine ⟨hsm, hpm, ?_, ?_⟩
  · dsimp only [spoilagePredict]
    apply round2_mono
    rw [spoilageRawPct_storage_shape, spoilageRawPct_storage_shape, hsm,
      show storageMult "cold_storage" = 2/5 from rfl]
    exact clampMulFactor_mono _ (by norm_num) (by norm_num)
  · dsimp only [spoilagePredict]
    apply round2_mono
    rw [spoilageRawPct_storage_shape, spoilageRawPct_storage_shape, hsm,
      show storageMult "covered" = 6/5 from rfl]
    exact clampMulFactor_mono _ (by norm_num) (by norm_num)

/-- Witness for C10: the spec's storage name "controlled_atmosphere" and
an unknown packaging string "gunny" both default to multiplier 1, and
the resulting percentage sits between the cold-storage and covered
results. -/
theorem spoilage_unknown_storage_witness :
    storageMult "controlled_atmosphere" = 1 ∧ packagingMult "gunny" = 1
    ∧ (spoilagePredict envEx metaEx "cold_storage" "gunny" 0 1000).spoilagePct ≤
        (spoilagePredict envEx metaEx "controlled_atmosphere" "gunny" 0 1000).spoilagePct
    ∧ (spoilagePredict envEx metaEx "controlled_atmosphere" "gunny" 0 1000).spoilagePct ≤
        (spoilagePredict envEx metaEx "covered" "gunny" 0 1000).spoilagePct :=
  spoilage_unknown_storage_packaging "controlled_atmosphere" "gunny" envEx metaEx 0 1000
    (by decide) (by decide)

/-- C4. In the harvest priority cascade, an over-mature maturity
signal always produces action `urgent_harvest`, whatever the NDVI and
price signals say (the spoilage model is not even an input of
`_make_decision`), with `wait_days = 0` when the weather status is
optimal or fair and `wait_days = 1` otherwise. -/
theorem overMature_forces_urgent (maturity : MaturitySignal) (ndvi : NdviSignal)
    (weather : WeatherSignal) (price : PriceSignal) (meta : HarvestCropMeta)
    (h : maturity.status = some "over_mature") :
    (makeDecision maturity ndvi weather price meta).action = "urgent_harvest"
    ∧ (makeDecision maturity ndvi weather price meta).waitDays
        = (if weather.status = some "optimal" ∨ weather.status = some "fair" then 0 else 1) := by
  unfold makeDecision
  rw [if_pos h]
  split_ifs with hw
  · exact ⟨rfl, rfl⟩
  · exact ⟨rfl, rfl⟩

/-- Witness for C4: over-mature crop with rising prices, harvest-ready
NDVI and fair weather still yields an immediate urgent harvest. -/
theorem overMature_forces_urgent_witness :
    (makeDecision ⟨some "over_mature", some 1, none⟩ ⟨some "harvest_ready"⟩
        ⟨some "fair"⟩ ⟨some "prices_rising"⟩ ⟨some 14⟩).action = "urgent_harvest"
    ∧ (makeDecision ⟨some "over_mature", some 1, none⟩ ⟨some "harvest_ready"⟩
        ⟨some "fair"⟩ ⟨some "prices_rising"⟩ ⟨some 14⟩).waitDays = 0 := by
  have h := overMature_forces_urgent ⟨some "over_mature", some 1, none⟩
    ⟨some "harvest_ready"⟩ ⟨some "fair"⟩ ⟨some "prices_rising"⟩ ⟨some 14⟩ rfl
  refine ⟨h.1, ?_⟩
  rw [h.2]
  decide

/-- C8 (amended). The confidence of `_compute_confidence` is exactly
0.5 + 0.12 for each of {maturity status known, NDVI available, weather
available} + 0.08 for soil data — with NO penalty term for a
not-harvest-ready crop — and the upper clamp at 0.95 and the 2-decimal
rounding never alter the value, which always lies in [0.5, 0.94]. -/
theorem harvest_confidence_formula (m : MaturitySignal) (n : NdviSignal)
    (w : WeatherSignal) (s : Option SoilSignal) :
    computeHarvestConfidence m n w s
      = 1/2 + (if ¬ m.status = some "unknown" then (3:ℚ)/25 else 0)
          + (if ¬ n.status = some "no_data" then (3:ℚ)/25 else 0)
          + (if ¬ w.status = some "no_data" then (3:ℚ)/25 else 0)
          + (match s with
              | none => 0
              | some so => if ¬ so.status = some "no_data" then (2:ℚ)/25 else 0)
    ∧ 1/2 ≤ computeHarvestConfidence m n w s
    ∧ computeHarvestConfidence m n w s ≤ 47/50 := by
  unfold computeHarvestConfidence
  set t1 : ℚ := (if ¬ m.status = some "unknown" then (3:ℚ)/25 else 0) with ht1
  set t2 : ℚ := (if ¬ n.status = some "no_data" then (3:ℚ)/25 else 0) with ht2
  set t3 : ℚ := (if ¬ w.status = some "no_data" then (3:ℚ)/25 else 0) with ht3
  set t4 : ℚ := (match s with
    | none => (0:ℚ)
    | some so => if ¬ so.status = some "no_data" then (2:ℚ)/25 else 0) with ht4
  have hb1 : 0 ≤ t1 ∧ t1 ≤ 3/25 := by rw [ht1]; split_ifs <;> norm_num
  have hb2 : 0 ≤ t2 ∧ t2 ≤ 3/25 := by rw [ht2]; split_ifs <;> norm_num
  have hb3 : 0 ≤ t3 ∧ t3 ≤ 3/25 := by rw [ht3]; split_ifs <;> norm_num
  have hb4 : 0 ≤ t4 ∧ t4 ≤ 2/25 := by
    rw [ht4]
    rcases s with _ | so
    · norm_num
    · dsimp only
      split_ifs <;> norm_num
  have hi1 : ∃ k : ℤ, (100:ℚ) * t1 = (k:ℚ) := by
    rw [ht1]
    by_cases hc : m.status = some "unknown"
    · rw [if_neg (not_not_intro hc)]
      exact ⟨0, by norm_num⟩
    · rw [if_pos hc]
      exact ⟨12, by norm_num⟩
  have hi2 : ∃ k : ℤ, (100:ℚ) * t2 = (k:ℚ) := by
    rw [ht2]
    by_cases hc : n.status = some "no_data"
    · rw [if_neg (not_not_intro hc)]
      exact ⟨0, by norm_num⟩
    · rw [if_pos hc]
      exact ⟨12, by norm_num⟩
  have hi3 : ∃ k : ℤ, (100:ℚ) * t3 = (k:ℚ) := by
    rw [ht3]
    by_cases hc : w.status = some "no_data"
    · rw [if_neg (not_not_intro hc)]
      exact ⟨0, by norm_num⟩
    · rw [if_pos hc]
      exact ⟨12, by norm_num⟩
  have hi4 : ∃ k : ℤ, (100:ℚ) * t4 = (k:ℚ) := by
    rw [ht4]
    rcases s with _ | so
    · exact ⟨0, by norm_num⟩
    · dsimp only
      by_cases hc : so.status = some "no_data"
      · rw [if_neg (not_not_intro hc)]
        exact ⟨0, by norm_num⟩
      · rw [if_pos hc]
        exact ⟨8, by norm_num⟩
  obtain ⟨k1, hk1⟩ := hi1
  obtain ⟨k2, hk2⟩ := hi2
  obtain ⟨k3, hk3⟩ := hi3
  obtain ⟨k4, hk4⟩ := hi4
  have hsum_le : 1/2 + t1 + t2 + t3 + t4 ≤ 47/50 := by
    have := hb1.2; have := hb2.2; have := hb3.2; have := hb4.2
    linarith
  have hsum_ge : 1/2 ≤ 1/2 + t1 + t2 + t3 + t4 := by
    have := hb1.1; have := hb2.1; have := hb3.1; have := hb4.1
    linarith
  have hmin : min ((19:ℚ)/20) (1/2 + t1 + t2 + t3 + t4) = 1/2 + t1 + t2 + t3 + t4 :=
    min_eq_right (by linarith)
  rw [hmin]
  have hr : round2 (1/2 + t1 + t2 + t3 + t4) = 1/2 + t1 + t2 + t3 + t4 := by
    apply round2_eq_self_of_int
    refine ⟨50 + k1 + k2 + k3 + k4, ?_⟩
    push_cast
    linarith
  rw [hr]
  exact ⟨rfl, hsum_ge, hsum_le⟩

/-- C8 counterexample. With maturity known (status "immature", not
harvest-ready), NDVI "growing", fair weather and good soil, the code
yields confidence 0.94, while the claimed formula (with its −0.08
not-harvest-ready penalty) yields 0.86: the penalty term does not exist
in `_compute_confidence`. -/
theorem harvest_confidence_counterexample :
    computeHarvestConfidence ⟨some "immature", some 0, some 30⟩ ⟨some "growing"⟩
        ⟨some "fair"⟩ (some ⟨some "good"⟩) = 47/50
    ∧ specHarvestConfidence true true true true false = 43/50
    ∧ computeHarvestConfidence ⟨some "immature", some 0, some 30⟩ ⟨some "growing"⟩
        ⟨some "fair"⟩ (some ⟨some "good"⟩)
      ≠ specHarvestConfidence true true true true false := by
  have h1 : computeHarvestConfidence ⟨some "immature", some 0, some 30⟩ ⟨some "growing"⟩
      ⟨some "fair"⟩ (some ⟨some "good"⟩) = 47/50 := by
    have h := (harvest_confidence_formula ⟨some "immature", some 0, some 30⟩ ⟨some "growing"⟩
      ⟨some "fair"⟩ (some ⟨some "good"⟩)).1
    rw [h]
    rw [if_pos (by decide), if_pos (by decide), if_pos (by decide)]
    dsimp only
    rw [if_pos (by decide : ¬ (some "good" : Option String) = some "no_data")]
    norm_num
  have h2 : specHarvestConfidence true true true true false = 43/50 := by
    unfold specHarvestConfidence clampQ
    norm_num
  refine ⟨h1, h2, ?_⟩
  rw [h1, h2]
  norm_num

/-- C5 (amended). With the extreme-weather flag off, on the
rising-price + Low-spoilage branch `combine_model_outputs` keeps a
harvest action already of the `wait_*` form unchanged but replaces ANY
other action — including `urgent_harvest` — with `wait_3_days`; in the
remaining cases (price not falling, spoilage not High/Critical, and not
the rising+Low branch) the harvest recommendation passes through
unchanged. -/
theorem composer_action_cases (pt : PriceTrendIn) (hw : HarvestWindowIn)
    (sr : SpoilageRiskIn) (ft : DecisionFeatures)
    (hx : ft.extremeWeatherFlag = false) :
    ((pyLower (pt.direction.getD "stable") = "rising"
        ∧ pyLower (sr.riskCategory.getD "Medium") = "low"
        ∧ pyStartsWith (hw.recommendation.getD "harvest_now") "wait_" = true) →
      (combineModelOutputs pt hw sr ft).action = hw.recommendation.getD "harvest_now")
    ∧ ((pyLower (pt.direction.getD "stable") = "rising"
        ∧ pyLower (sr.riskCategory.getD "Medium") = "low"
        ∧ pyStartsWith (hw.recommendation.getD "harvest_now") "wait_" = false) →
      (combineModelOutputs pt hw sr ft).action = "wait_3_days")
    ∧ ((¬ (pyLower (pt.direction.getD "stable") = "rising"
            ∧ pyLower (sr.riskCategory.getD "Medium") = "low"))
        → pyLower (pt.direction.getD "stable") ≠ "falling"
        → pyLower (sr.riskCategory.getD "Medium") ≠ "high"
        → pyLower (sr.riskCategory.getD "Medium") ≠ "critical"
        → (combineModelOutputs pt hw sr ft).action = hw.recommendation.getD "harvest_now") := by
  unfold combineModelOutputs
  dsimp only
  rw [hx]
  refine ⟨fun h => ?_, fun h => ?_, fun h h1 h2 h3 => ?_⟩
  · rw [if_neg Bool.false_ne_true, if_pos ⟨h.1, h.2.1⟩, if_pos h.2.2]
  · rw [if_neg Bool.false_ne_true, if_pos ⟨h.1, h.2.1⟩, if_neg (by rw [h.2.2]; exact Bool.false_ne_true)]
  · rw [if_neg Bool.false_ne_true, if_neg h, if_neg ?_]
    rintro (hc | hc | hc)
    · exact h1 hc
    · exact h2 hc
    · exact h3 hc

/-- Witness for C5: extreme weather off, stable price trend and Medium
spoilage leave the harvest recommendation untouched. -/
theorem composer_action_cases_witness :
    (combineModelOutputs ⟨some "stable", none, none⟩ ⟨some "harvest_now", none⟩
        ⟨some "Medium", none, none⟩
        ⟨false, none, none, none, none, none, none, none⟩).action = "harvest_now" := by
  have h := composer_action_cases ⟨some "stable", none, none⟩ ⟨some "harvest_now", none⟩
    ⟨some "Medium", none, none⟩ ⟨false, none, none, none, none, none, none, none⟩ rfl
  exact h.2.2 (by decide) (by decide) (by decide) (by decide)

/-- C5 counterexample. With extreme weather off, rising prices and
Low spoilage, an `urgent_harvest` recommendation IS replaced by the
longer `wait_3_days`: the code guards only on the `wait_` prefix, so
the "never shortens an already-urgent action" reading fails. -/
theorem composer_urgent_replaced_counterexample :
    (combineModelOutputs ⟨some "rising", none, none⟩ ⟨some "urgent_harvest", none⟩
        ⟨some "Low", none, none⟩
        ⟨false, none, none, none, none, none, none, none⟩).action = "wait_3_days"
    ∧ "wait_3_days" ≠ "urgent_harvest" := by
  constructor
  · decide
  · decide

theorem enum_map_comp {α β : Type} (l : List α) (f : α → β) :
    l.enum.map (fun p => f p.2) = l.map f := by
  have h1 : l.enum.map (fun p => f p.2) = (l.enum.map Prod.snd).map f := by
    rw [List.map_map]
    rfl
  rw [h1, List.enum_map_snd]

theorem recommend_mandi_names (evalProfit : String → ℚ) (originDistrict : String)
    (targetMandis : Option (List String)) :
    (recommend evalProfit originDistrict targetMandis).map MandiRec.mandi
      = (((candidateMandis (pyLower originDistrict) targetMandis).map
            (fun m => (m, evalProfit m))).mergeSort
              (fun a b => decide (b.2 ≤ a.2))).map Prod.fst := by
  unfold recommend
  dsimp only
  rw [List.map_map]
  exact enum_map_comp _ (Prod.fst : String × ℚ → String)

theorem candidateMandis_ne_nil (origin : String) (targetMandis : Option (List String)) :
    candidateMandis origin targetMandis ≠ [] := by
  unfold candidateMandis defaultCandidates
  rcases targetMandis with _ | (_ | ⟨t, ts⟩)
  · dsimp only
    split_ifs with h
    · exact List.ne_nil_of_mem h
    · exact List.cons_ne_nil _ _
  · dsimp only
    split_ifs with h
    · exact List.ne_nil_of_mem h
    · exact List.cons_ne_nil _ _
  · simp

theorem origin_mem_defaultCandidates (origin : String) :
    origin ∈ defaultCandidates origin := by
  unfold defaultCandidates
  dsimp only
  split_ifs with h
  · exact h
  · exact List.mem_cons_self _ _

/-- C3 (amended). The ranking returned by
`RecommendationEngine.recommend` is never empty (an empty explicit list
is falsy and falls back to the default table, which always contains the
origin); the origin district is guaranteed to be among the evaluated
candidates only when no non-empty explicit candidate list is supplied —
an explicit list is used verbatim and may omit the origin. -/
theorem rankMandis_nonempty_and_origin (evalProfit : String → ℚ)
    (originDistrict : String) (targetMandis : Option (List String)) :
    recommend evalProfit originDistrict targetMandis ≠ []
    ∧ ((targetMandis = none ∨ targetMandis = some []) →
        pyLower originDistrict ∈
          (recommend evalProfit originDistrict targetMandis).map MandiRec.mandi) := by
  constructor
  · intro hnil
    have hlen := congrArg List.length hnil
    simp only [List.length_nil] at hlen
    unfold recommend at hlen
    dsimp only at hlen
    rw [List.length_map, List.enum_length, List.length_mergeSort, List.length_map] at hlen
    exact candidateMandis_ne_nil (pyLower originDistrict) targetMandis
      (List.length_eq_zero.mp hlen)
  · intro ht
    have hcand : pyLower originDistrict
        ∈ candidateMandis (pyLower originDistrict) targetMandis := by
      rcases ht with h | h <;> rw [h]
      · exact origin_mem_defaultCandidates _
      · exact origin_mem_defaultCandidates _
    rw [recommend_mandi_names]
    have h1 : (pyLower originDistrict, evalProfit (pyLower originDistrict))
        ∈ (candidateMandis (pyLower originDistrict) targetMandis).map
            (fun m => (m, evalProfit m)) :=
      List.mem_map_of_mem _ hcand
    have h2 : (pyLower originDistrict, evalProfit (pyLower originDistrict))
        ∈ ((candidateMandis (pyLower originDistrict) targetMandis).map
            (fun m => (m, evalProfit m))).mergeSort (fun a b => decide (b.2 ≤ a.2)) :=
      List.mem_mergeSort.mpr h1
    exact List.mem_map_of_mem Prod.fst h2

/-- Witness for C3 at a concrete call: origin Nashik, no explicit list;
the ranking is non-empty and contains the origin. -/
theorem rankMandis_witness :
    recommend (fun _ => 0) "Nashik" none ≠ []
    ∧ pyLower "Nashik" ∈ (recommend (fun _ => 0) "Nashik" none).map MandiRec.mandi := by
  have h := rankMandis_nonempty_and_origin (fun _ => 0) "Nashik" none
  exact ⟨h.1, h.2 (Or.inl rfl)⟩

/-- C3 counterexample. When the caller supplies the explicit
candidate list ["Pune"] from origin Nashik, the evaluated candidates are
exactly ["pune"]: the origin district is NOT added and does not appear
in the ranking. -/
theorem rankMandis_explicit_omits_origin_counterexample :
    (recommend (fun _ => 0) "Nashik" (some ["Pune"])).map MandiRec.mandi = ["pune"]
    ∧ ¬ "nashik" ∈ (recommend (fun _ => 0) "Nashik" (some ["Pune"])).map MandiRec.mandi := by
  have hnames : (recommend (fun _ => 0) "Nashik" (some ["Pune"])).map MandiRec.mandi = ["pune"] := by
    rw [recommend_mandi_names]
    rw [show (candidateMandis (pyLower "Nashik") (some ["Pune"])).map
        (fun m => (m, (fun _ => (0:ℚ)) m)) = [("pune", (0:ℚ))] from by decide]
    rw [List.mergeSort_singleton]
    decide
  refine ⟨hnames, ?_⟩
  rw [hnames]
  decide

/-- C1 (amended). `PricePredictor.train` never raises: with fewer
than 50 valid feature rows it RETURNS the soft report
`{"status": "insufficient_data", "samples": n}` (the codebase defines no
InsufficientDataError), and with at least 50 rows it returns the
trained report carrying the sample count, the rounded MAE and the
rounded MAPE (in percent) of the cross-validation; fewer than 35 price
rows always give the insufficient report with 0 samples. -/
theorem train_report_cases (env : MathEnv) (cv : List (List ℚ × ℚ) → ℚ × ℚ)
    (prices : List PriceRowIn) (weather : List WeatherRowIn) :
    ((extractFeatures env prices weather).length < 50 →
      train env cv prices weather
        = TrainResult.insufficientData (extractFeatures env prices weather).length)
    ∧ (50 ≤ (extractFeatures env prices weather).length →
      train env cv prices weather
        = TrainResult.trained (extractFeatures env prices weather).length
            (round2 (cv (extractFeatures env prices weather)).1)
            (round2 ((cv (extractFeatures env prices weather)).2 * 100)))
    ∧ (prices.length < 35 →
      train env cv prices weather = TrainResult.insufficientData 0) := by
  refine ⟨fun h => ?_, fun h => ?_, fun h => ?_⟩
  · unfold train
    dsimp only
    rw [if_pos h]
  · unfold train
    dsimp only
    rw [if_neg (by omega)]
  · have hX : extractFeatures env prices weather = [] := by
      unfold extractFeatures
      rw [if_pos h]
    unfold train
    dsimp only
    rw [hX]
    norm_num

/-- Witness for C1 at a concrete input: a single price row is below the
35-row minimum, so training returns the insufficient-data report with 0
samples. -/
theorem train_report_witness :
    train mathEnv0 (fun _ => (0, 0)) [⟨0, true, 1, 0, 100, none⟩] []
      = TrainResult.insufficientData 0 :=
  (train_report_cases mathEnv0 (fun _ => (0, 0)) [⟨0, true, 1, 0, 100, none⟩] []).2.2
    (by norm_num)

/-- C1 counterexample. With no historical rows at all, `train`
returns `{"status": "insufficient_data", "samples": 0}` as an ordinary
value: there is no InsufficientDataError anywhere in the codebase and
nothing is raised, contradicting the claim that training "fails with
InsufficientDataError". -/
theorem train_no_exception_counterexample :
    train mathEnv0 (fun _ => (0, 0)) [] [] = TrainResult.insufficientData 0 := by
  rfl

/-- C2 (amended). The statistical-fallback path of
`PricePredictor.predict` is taken exactly when fewer than 14 recent
local prices exist (NOT merely when the model is absent): on it the
whole result is `_statistical_forecast`, the confidence is exactly
0.35, the provenance is "statistical_fallback", the cached model is
never consulted (the result is independent of it), and each day's point
prediction is the base price (mean of available prices, else the crop
baseline, else 2000) plus the deterministic day-indexed oscillation
`base * 0.01 * (day % 3 - 1)`. -/
theorem fallback_path_characterization (env : MathEnv) (model : Option (List ℚ → ℚ))
    (ctx : PredictCtx) (days : ℕ) (h : ctx.recentPrices.length < 14) :
    pricePredict env model ctx days = statisticalForecast ctx days
    ∧ (pricePredict env model ctx days).confidence = 7/20
    ∧ (pricePredict env model ctx days).source = "statistical_fallback"
    ∧ (∀ modelB : Option (List ℚ → ℚ),
        pricePredict env model ctx days = pricePredict env modelB ctx days)
    ∧ ∀ k, k < days →
        ((pricePredict env model ctx days).forecasts.getD k ⟨0, 0, 0, 0⟩).predictedPrice
          = round2 (statBasePrice ctx
              + statBasePrice ctx * (1/100) * ((((k + 1) % 3 : ℕ) : ℚ) - 1)) := by
  have h1 : pricePredict env model ctx days = statisticalForecast ctx days := by
    unfold pricePredict
    rw [if_pos h]
  refine ⟨h1, ?_, ?_, fun modelB => ?_, fun k hk => ?_⟩
  · rw [h1]
    rfl
  · rw [h1]
    rfl
  · rw [h1]
    unfold pricePredict
    rw [if_pos h]
  · rw [h1]
    unfold statisticalForecast
    dsimp only
    rw [List.getD_eq_getElem?_getD, List.getElem?_map, List.getElem?_range hk]
    rfl

/-- Witness for C2: an empty local history (0 < 14 days) produces the
statistical fallback with confidence exactly 0.35 and provenance
"statistical_fallback". -/
theorem fallback_path_witness :
    pricePredict mathEnv0 none ⟨[], [], none, [100], none⟩ 2
      = statisticalForecast ⟨[], [], none, [100], none⟩ 2
    ∧ (pricePredict mathEnv0 none ⟨[], [], none, [100], none⟩ 2).confidence = 7/20
    ∧ (pricePredict mathEnv0 none ⟨[], [], none, [100], none⟩ 2).source
        = "statistical_fallback" := by
  have h := fallback_path_characterization mathEnv0 none ⟨[], [], none, [100], none⟩ 2
    (by simp)
  exact ⟨h.1, h.2.1, h.2.2.1⟩

/-- C2 counterexample. With the trained model ABSENT but 14 days of
flat local history, predict does not take the statistical fallback:
the confidence is 0.55 (not 0.35) and the provenance field is
"statistical" (not "statistical_fallback") — the in-path moving-average
fallback is a different path from `_statistical_forecast`. -/
theorem modelless_not_fallback_counterexample :
    (pricePredict mathEnv0 none ctx14 1).confidence = 11/20
    ∧ (pricePredict mathEnv0 none ctx14 1).source = "statistical"
    ∧ ((11 : ℚ)/20 ≠ 7/20) ∧ ("statistical" ≠ "statistical_fallback") := by
  refine ⟨?_, ?_, by norm_num, by decide⟩
  · rfl
  · rfl

theorem lastSlice_subset (xs : List ℚ) (k : ℕ) : lastSlice xs k ⊆ xs := by
  unfold lastSlice
  exact List.drop_subset _ _

theorem maOf_nonneg (xs : List ℚ) (k : ℕ) (h : ∀ p ∈ xs, 0 ≤ p) : 0 ≤ maOf xs k := by
  unfold maOf
  apply div_nonneg
  · exact List.sum_nonneg (fun x hx => h x (lastSlice_subset xs k hx))
  · positivity

theorem forecastVolatility_nonneg (env : MathEnv) (cur : List ℚ)
    (hs : ∀ q, 0 ≤ env.sqrtQ q) : 0 ≤ forecastVolatility env cur := by
  unfold forecastVolatility
  dsimp only
  rcases le_or_lt (maOf cur 7) 0 with hma | hma
  · rw [if_neg (not_lt.mpr hma)]
  · rw [if_pos hma]
    exact div_nonneg (hs _) hma.le

theorem forecastStep_nonneg (env : MathEnv) (model : Option (List ℚ → ℚ))
    (ctx : PredictCtx) (o : ℕ) (cur : List ℚ)
    (hmodel : ∀ g, model = some g → ∀ f, 0 ≤ g f)
    (hcur : ∀ p ∈ cur, 0 ≤ p) : 0 ≤ forecastStep env model ctx o cur := by
  unfold forecastStep
  cases model with
  | some g => exact hmodel g rfl _
  | none =>
    dsimp only
    have hma7 : 0 ≤ maOf cur 7 := maOf_nonneg _ _ hcur
    have hma21 : 0 ≤ maOf cur 21 := maOf_nonneg _ _ hcur
    rcases le_or_lt (maOf cur 21) 0 with h21 | h21
    · rw [if_neg (not_lt.mpr h21)]
      have he : maOf cur 7 * (1 + 0 * (3/10)) = maOf cur 7 := by ring
      rw [he]
      exact hma7
    · rw [if_pos h21]
      have hfac : 0 ≤ 1 + (maOf cur 7 - maOf cur 21) / maOf cur 21 * (3/10) := by
        have he : 1 + (maOf cur 7 - maOf cur 21) / maOf cur 21 * (3/10)
            = (7/10 * maOf cur 21 + 3/10 * maOf cur 7) / maOf cur 21 := by
          field_simp
          ring
        rw [he]
        exact div_nonneg (by linarith) hma21
      exact mul_nonneg hma7 hfac

theorem forecastLoop_brackets (env : MathEnv) (model : Option (List ℚ → ℚ))
    (ctx : PredictCtx)
    (hsqrt : ∀ q, 0 ≤ env.sqrtQ q)
    (hmodel : ∀ g, model = some g → ∀ f, 0 ≤ g f) :
    ∀ (k o : ℕ) (cur : List ℚ), (∀ p ∈ cur, 0 ≤ p) →
      ∀ f ∈ forecastLoop env model ctx k o cur,
        f.ciLow ≤ f.predictedPrice ∧ f.predictedPrice ≤ f.ciHigh := by
  intro k
  induction k with
  | zero =>
    intro o cur hcur f hf
    simp only [forecastLoop, List.not_mem_nil] at hf
  | succ n ih =>
    intro o cur hcur f hf
    simp only [forecastLoop] at hf
    have hp : 0 ≤ forecastStep env model ctx o cur :=
      forecastStep_nonneg env model ctx o cur hmodel hcur
    have hv : 0 ≤ forecastVolatility env cur := forecastVolatility_nonneg env cur hsqrt
    have hu : 0 ≤ max (forecastStep env model ctx o cur * forecastVolatility env cur)
        (forecastStep env model ctx o cur * (3/100)) :=
      le_trans (mul_nonneg hp (by norm_num)) (le_max_right _ _)
    rcases List.mem_cons.mp hf with hf1 | hf1
    · subst hf1
      constructor
      · exact round2_mono (by linarith)
      · exact round2_mono (by linarith)
    · exact ih (o + 1) (cur ++ [forecastStep env model ctx o cur])
        (by
          intro p hp2
          rcases List.mem_append.mp hp2 with h2 | h2
          · exact hcur p h2
          · rw [List.mem_singleton] at h2
            rw [h2]
            exact hp)
        f hf1

theorem statBasePrice_nonneg (ctx : PredictCtx)
    (hfall : ∀ p ∈ ctx.fallbackPrices, 0 ≤ p)
    (hmeta : 0 ≤ orElseQ ctx.metaBasePrice 0) : 0 ≤ statBasePrice ctx := by
  unfold statBasePrice
  split_ifs with h1 h2
  · exact div_nonneg (List.sum_nonneg hfall) (by positivity)
  · exact hmeta
  · norm_num

theorem statisticalForecast_brackets (ctx : PredictCtx) (days : ℕ)
    (hbase : 0 ≤ statBasePrice ctx) :
    ∀ f ∈ (statisticalForecast ctx days).forecasts,
      f.ciLow ≤ f.predictedPrice ∧ f.predictedPrice ≤ f.ciHigh := by
  intro f hf
  unfold statisticalForecast at hf
  dsimp only at hf
  rw [List.mem_map] at hf
  obtain ⟨k, hk, hfk⟩ := hf
  subst hfk
  dsimp only
  have hm : (0:ℚ) ≤ (((k + 1) % 3 : ℕ) : ℚ) := by positivity
  have hraw : 0 ≤ statBasePrice ctx
      + statBasePrice ctx * (1/100) * ((((k + 1) % 3 : ℕ) : ℚ) - 1) := by nlinarith
  have hP : 0 ≤ round2 (statBasePrice ctx
      + statBasePrice ctx * (1/100) * ((((k + 1) % 3 : ℕ) : ℚ) - 1)) := round2_nonneg hraw
  have hPid : round2 (round2 (statBasePrice ctx
      + statBasePrice ctx * (1/100) * ((((k + 1) % 3 : ℕ) : ℚ) - 1)))
      = round2 (statBasePrice ctx
        + statBasePrice ctx * (1/100) * ((((k + 1) % 3 : ℕ) : ℚ) - 1)) := round2_idem _
  constructor
  · calc round2 (round2 (statBasePrice ctx
          + statBasePrice ctx * (1/100) * ((((k + 1) % 3 : ℕ) : ℚ) - 1)) * (92/100))
        ≤ round2 (round2 (statBasePrice ctx
          + statBasePrice ctx * (1/100) * ((((k + 1) % 3 : ℕ) : ℚ) - 1))) :=
          round2_mono (by nlinarith)
      _ = _ := hPid
  · calc round2 (statBasePrice ctx
          + statBasePrice ctx * (1/100) * ((((k + 1) % 3 : ℕ) : ℚ) - 1))
        = round2 (round2 (statBasePrice ctx
          + statBasePrice ctx * (1/100) * ((((k + 1) % 3 : ℕ) : ℚ) - 1))) := hPid.symm
      _ ≤ round2 (round2 (statBasePrice ctx
          + statBasePrice ctx * (1/100) * ((((k + 1) % 3 : ℕ) : ℚ) - 1)) * (108/100)) :=
          round2_mono (by nlinarith)

/-- C9. Every per-day entry of a price forecast — on the
model-backed path (interval = point ± 2·max(point·volatility,
point·0.03), rounded) as well as on the statistical-fallback path —
brackets its point prediction: ci_low ≤ predicted_price ≤ ci_high.
Hypotheses: the external square root is nonnegative, the (external)
trained model predicts nonnegative prices, and the historical prices
are nonnegative. -/
theorem forecast_interval_brackets (env : MathEnv) (model : Option (List ℚ → ℚ))
    (ctx : PredictCtx) (days : ℕ)
    (hsqrt : ∀ q, 0 ≤ env.sqrtQ q)
    (hmodel : ∀ g, model = some g → ∀ f, 0 ≤ g f)
    (hrecent : ∀ p ∈ ctx.recentPrices, 0 ≤ p)
    (hfall : ∀ p ∈ ctx.fallbackPrices, 0 ≤ p)
    (hmeta : 0 ≤ orElseQ ctx.metaBasePrice 0) :
    ∀ f ∈ (pricePredict env model ctx days).forecasts,
      f.ciLow ≤ f.predictedPrice ∧ f.predictedPrice ≤ f.ciHigh := by
  intro f hf
  unfold pricePredict at hf
  by_cases h : ctx.recentPrices.length < 14
  · rw [if_pos h] at hf
    exact statisticalForecast_brackets ctx days
      (statBasePrice_nonneg ctx hfall hmeta) f hf
  · rw [if_neg h] at hf
    dsimp only at hf
    exact forecastLoop_brackets env model ctx hsqrt hmodel days 1 ctx.recentPrices
      hrecent f hf

/-- Witness for C9 at a concrete input: one fallback day forecast at
base price 100 gives point 100 with interval [92, 108]. -/
theorem forecast_interval_witness :
    ((pricePredict mathEnv0 none ⟨[], [], none, [100], none⟩ 1).forecasts.getD 0
        ⟨0, 0, 0, 0⟩).ciLow
      ≤ ((pricePredict mathEnv0 none ⟨[], [], none, [100], none⟩ 1).forecasts.getD 0
        ⟨0, 0, 0, 0⟩).predictedPrice
    ∧ ((pricePredict mathEnv0 none ⟨[], [], none, [100], none⟩ 1).forecasts.getD 0
        ⟨0, 0, 0, 0⟩).predictedPrice
      ≤ ((pricePredict mathEnv0 none ⟨[], [], none, [100], none⟩ 1).forecasts.getD 0
        ⟨0, 0, 0, 0⟩).ciHigh := by
  have hgd : ∀ (l : List ForecastDay) (i : ℕ) (d : ForecastDay),
      i < l.length → l.getD i d ∈ l := by
    intro l i d h
    rw [List.getD_eq_getElem?_getD, List.getElem?_eq_getElem h]
    exact List.getElem_mem h
  have hmem : (pricePredict mathEnv0 none ⟨[], [], none, [100], none⟩ 1).forecasts.getD 0
      ⟨0, 0, 0, 0⟩ ∈ (pricePredict mathEnv0 none ⟨[], [], none, [100], none⟩ 1).forecasts := by
    apply hgd
    have h := fallback_path_characterization mathEnv0 none ⟨[], [], none, [100], none⟩ 1
      (by simp)
    rw [h.1]
    simp [statisticalForecast]
  exact forecast_interval_brackets mathEnv0 none ⟨[], [], none, [100], none⟩ 1
    (fun q => le_refl 0)
    (fun g hg => nomatch hg)
    (by simp)
    (by
      intro p hp
      rw [List.mem_singleton] at hp
      rw [hp]
      norm_num)
    (by norm_num [orElseQ])
    _ hmem
